import Mathlib

/-!
# Verification of the Circle-Generator360 geodesic circle-point generator

The repository consists of a React front end (`src/App.tsx`) around a core
geodesic circle-point generator (`generateCirclePoints` from
`services/geoService`).  The caller-side validation logic and the distance-list
state transitions are embedded directly from `src/App.tsx`.  The core generator
itself is not part of the inspected sources, so it is modelled from the
specification (spherical direct-geodesic formula on a sphere of radius
3958.8 statute miles, longitude wrapping into `[-180, 180)`, bearings
`0, step, …` below 360, and an `InvalidDistance` failure for non-positive
distances).  All machine floating-point numbers are modelled as real numbers.
-/

namespace CircleGen

noncomputable section

/-- Degrees to radians. -/
def toRad (x : ℝ) : ℝ := x * Real.pi / 180

/-- Radians to degrees. -/
def toDeg (x : ℝ) : ℝ := x * 180 / Real.pi

/-- Modelled from the spec: Earth is a sphere of radius 3958.8 statute miles. -/
def earthRadiusMiles : ℝ := 3958.8

/-- Two-argument arctangent `atan2(y, x)`, realized as the argument of the
complex number `x + y·i`; this agrees with the usual `atan2` on every input
(`atan2 0 0 = 0`). -/
def atan2 (y x : ℝ) : ℝ := Complex.arg ⟨x, y⟩

/-- Modelled from the spec: normalize a longitude (in degrees) into
`[-180, 180)` by `((λ + 180) mod 360) - 180`, with the mathematical (always
non-negative remainder) modulus. -/
def wrapLon (x : ℝ) : ℝ := ((x + 180) - 360 * ⌊(x + 180) / 360⌋) - 180

/-- Output record of the generator: a destination point tagged with the
requested distance (miles) and the bearing (degrees) used to reach it. -/
structure GeneratedPoint where
  distance : ℝ
  angle : ℝ
  latitude : ℝ
  longitude : ℝ

/-- Modelled from the spec: destination latitude in radians,
`φ2 = asin(sin φ1 · cos δ + cos φ1 · sin δ · cos θ)` with `δ = d / R`. -/
def destLatRad (lat d θ : ℝ) : ℝ :=
  Real.arcsin (Real.sin (toRad lat) * Real.cos (d / earthRadiusMiles) +
    Real.cos (toRad lat) * Real.sin (d / earthRadiusMiles) * Real.cos (toRad θ))

/-- Modelled from the spec: destination longitude in radians,
`λ2 = λ1 + atan2(sin θ · sin δ · cos φ1, cos δ - sin φ1 · sin φ2)`. -/
def destLonRad (lat lon d θ : ℝ) : ℝ :=
  toRad lon +
    atan2 (Real.sin (toRad θ) * Real.sin (d / earthRadiusMiles) * Real.cos (toRad lat))
      (Real.cos (d / earthRadiusMiles) -
        Real.sin (toRad lat) * Real.sin (destLatRad lat d θ))

/-- Modelled from the spec: one destination point, with the longitude wrapped
into `[-180, 180)`. -/
def destinationPoint (lat lon d θ : ℝ) : GeneratedPoint :=
  { distance := d
    angle := θ
    latitude := toDeg (destLatRad lat d θ)
    longitude := wrapLon (toDeg (destLonRad lat lon d θ)) }

/-- Modelled from the spec: the number of bearings `0, step, 2·step, …`
strictly below 360, i.e. `⌈360 / step⌉` (equal to `360 / step` whenever the
step evenly divides 360). -/
def numPoints (step : ℝ) : ℕ := ⌈(360 : ℝ) / step⌉₊

/-- Modelled from the spec: the bearing ring `0, step, 2·step, …, 360 - step`
in increasing order. -/
def bearings (step : ℝ) : List ℝ :=
  (List.range (numPoints step)).map (fun i : ℕ => (i : ℝ) * step)

/-- The single error kind of the core: the offending distance is carried so
that the caller can build a message. -/
inductive GeoError where
  | invalidDistance (d : ℝ)

/-- Modelled from the spec: `generateCirclePoints` fails with `InvalidDistance`
when the distance is not strictly positive (NaN/∞ have no counterpart in the
real-number model), and otherwise returns the full ring of destination points
in increasing bearing order.  The angular step defaults to 10 degrees. -/
def generateCirclePoints (lat lon d : ℝ) (step : ℝ := 10) :
    Except GeoError (List GeneratedPoint) :=
  if d ≤ 0 then Except.error (GeoError.invalidDistance d)
  else Except.ok ((bearings step).map (destinationPoint lat lon d))

/-- Modelled from the spec: the `a` term of the haversine formula,
`sin²(Δφ/2) + cos φ1 · cos φ2 · sin²(Δλ/2)`. -/
def haverA (lat1 lon1 lat2 lon2 : ℝ) : ℝ :=
  Real.sin (toRad (lat2 - lat1) / 2) ^ 2 +
    Real.cos (toRad lat1) * Real.cos (toRad lat2) * Real.sin (toRad (lon2 - lon1) / 2) ^ 2

/-- Modelled from the spec: great-circle distance in miles by the haversine
formula on the sphere of radius 3958.8 miles,
`R · 2 · atan2(√a, √(1-a))`. -/
def haversineDistanceMiles (lat1 lon1 lat2 lon2 : ℝ) : ℝ :=
  earthRadiusMiles * (2 * atan2 (Real.sqrt (haverA lat1 lon1 lat2 lon2))
    (Real.sqrt (1 - haverA lat1 lon1 lat2 lon2)))

/-! ## The calling application (`src/App.tsx`) -/

/-- Outcome of one click of Generate: either a validation error message is set
and the core is never called, or the core is called once per valid distance
with the parsed center. -/
inductive GenOutcome where
  | validationError (msg : String)
  | calls (lat lon : ℝ) (distances : List ℝ)

/-- `handleGenerate` from `src/App.tsx`, after `parseFloat`: a `none` input
stands for a NaN parse result.  Mirrors the source checks
`isNaN(lat) || lat < -90 || lat > 90`, `isNaN(lon) || lon < -180 || lon > 180`
and the filter `!isNaN(d) && d > 0` over the distance list. -/
def handleGenerate (lat lon : Option ℝ) (ds : List (Option ℝ)) : GenOutcome :=
  match lat with
  | none => GenOutcome.validationError "Invalid Latitude. Must be between -90 and 90."
  | some la =>
    if la < -90 ∨ la > 90 then
      GenOutcome.validationError "Invalid Latitude. Must be between -90 and 90."
    else
      match lon with
      | none => GenOutcome.validationError "Invalid Longitude. Must be between -180 and 180."
      | some lo =>
        if lo < -180 ∨ lo > 180 then
          GenOutcome.validationError "Invalid Longitude. Must be between -180 and 180."
        else
          if ((ds.filterMap id).filter (fun d => decide (0 < d))).length = 0 then
            GenOutcome.validationError "Please provide at least one valid distance greater than 0."
          else
            GenOutcome.calls la lo ((ds.filterMap id).filter (fun d => decide (0 < d)))

/-- Initial distance-list state of `App` (`useState(['1', '3', '5'])`). -/
def initialDistances : List String := ["1", "3", "5"]

/-- `addDistance` from `src/App.tsx`: append an empty entry only while the
list has fewer than 5 entries. -/
def addDistance (s : List String) : List String :=
  if s.length < 5 then s ++ [""] else s

/-- `handleDistanceChange` from `src/App.tsx`: replace the entry at `index`. -/
def handleDistanceChange (index : ℕ) (value : String) (s : List String) : List String :=
  s.set index value

/-- `removeDistance` from `src/App.tsx`: keep the entries whose position
differs from `index` (`distances.filter((_, i) => i !== index)`). -/
def removeDistance (index : ℕ) (s : List String) : List String :=
  ((s.enum).filter (fun p => decide (p.1 ≠ index))).map Prod.snd

/-- The distance-list states reachable from the initial state through the
three `App` state transitions. -/
inductive ReachableDistances : List String → Prop where
  | init : ReachableDistances initialDistances
  | add {s} : ReachableDistances s → ReachableDistances (addDistance s)
  | change {s} (i : ℕ) (v : String) :
      ReachableDistances s → ReachableDistances (handleDistanceChange i v s)
  | remove {s} (i : ℕ) : ReachableDistances s → ReachableDistances (removeDistance i s)

end

/-! ## Helper lemmas -/

theorem generate_pos_eq {lat lon d : ℝ} (step : ℝ) (hd : 0 < d) :
    generateCirclePoints lat lon d step =
      Except.ok ((bearings step).map (destinationPoint lat lon d)) := by
  simp [generateCirclePoints, not_le.mpr hd]

theorem numPoints_ten_pos : 0 < numPoints 10 := by
  rw [numPoints]
  exact Nat.ceil_pos.mpr (by norm_num)

theorem zero_mem_bearings_ten : (0 : ℝ) ∈ bearings 10 := by
  rw [bearings, List.mem_map]
  exact ⟨0, List.mem_range.mpr numPoints_ten_pos, by norm_num⟩

theorem dest_mem_ring_ten (lat lon d : ℝ) :
    destinationPoint lat lon d 0 ∈ (bearings 10).map (destinationPoint lat lon d) :=
  List.mem_map.mpr ⟨0, zero_mem_bearings_ten, rfl⟩

/-! ## C3: the `InvalidDistance` failure -/

/-- C3: `generateCirclePoints` fails with the `InvalidDistance` error kind
exactly when the distance is `≤ 0` (non-finite inputs have no counterpart in
the real-number model); in particular `generate (0,0) 0 10` and
`generate (0,0) (-5) 10` fail that way, and every call either returns the
complete ring or no points at all — there is no partial result. -/
theorem generate_invalidDistance_iff :
    (∀ lat lon d step : ℝ,
      generateCirclePoints lat lon d step = Except.error (GeoError.invalidDistance d) ↔ d ≤ 0) ∧
    generateCirclePoints 0 0 0 10 = Except.error (GeoError.invalidDistance 0) ∧
    generateCirclePoints 0 0 (-5) 10 = Except.error (GeoError.invalidDistance (-5)) ∧
    (∀ lat lon d step : ℝ,
      (∃ e, generateCirclePoints lat lon d step = Except.error e) ∨
      generateCirclePoints lat lon d step =
        Except.ok ((bearings step).map (destinationPoint lat lon d))) := by
  refine ⟨fun lat lon d step => ?_, by simp [generateCirclePoints],
    by simp [generateCirclePoints], fun lat lon d step => ?_⟩
  · constructor
    · intro h
      by_contra hd
      rw [generate_pos_eq step (not_le.mp hd)] at h
      exact Except.noConfusion h
    · intro hd
      simp [generateCirclePoints, hd]
  · by_cases hd : d ≤ 0
    · exact Or.inl ⟨GeoError.invalidDistance d, by simp [generateCirclePoints, hd]⟩
    · exact Or.inr (generate_pos_eq step (not_le.mp hd))

/-! ## C7: determinism -/

/-- C7: `generateCirclePoints` is deterministic — for a fixed input tuple,
any two results of the call are equal. -/
theorem generate_deterministic :
    ∀ (lat lon d step : ℝ) (o o' : Except GeoError (List GeneratedPoint)),
      generateCirclePoints lat lon d step = o →
      generateCirclePoints lat lon d step = o' → o = o' := by
  intro lat lon d step o o' h h'
  rw [← h, ← h']

/-- Witness for C7 at the concrete input `(0, 0, 1, 10)`. -/
theorem generate_deterministic_witness :
    Except.ok ((bearings 10).map (destinationPoint 0 0 1)) =
      (Except.ok ((bearings 10).map (destinationPoint 0 0 1)) :
        Except GeoError (List GeneratedPoint)) :=
  generate_deterministic 0 0 1 10 _ _
    (generate_pos_eq 10 one_pos) (generate_pos_eq 10 one_pos)

/-! ## C4: cardinality of the ring -/

/-- C4: when the angular step evenly divides 360 (say `k · step = 360`),
a successful call returns exactly `k = 360 / step` points; with the default
step of 10 degrees — as at the `App.tsx` call site, which passes no step
argument — exactly 36 points are returned per radius. -/
theorem generate_card :
    (∀ (lat lon d step : ℝ) (k : ℕ), 0 < d → 0 < step → (k : ℝ) * step = 360 →
      ∃ pts, generateCirclePoints lat lon d step = Except.ok pts ∧ pts.length = k) ∧
    (∀ lat lon d : ℝ, 0 < d →
      ∃ pts, generateCirclePoints lat lon d = Except.ok pts ∧ pts.length = 36) := by
  have main : ∀ (lat lon d step : ℝ) (k : ℕ), 0 < d → 0 < step → (k : ℝ) * step = 360 →
      ∃ pts, generateCirclePoints lat lon d step = Except.ok pts ∧ pts.length = k := by
    intro lat lon d step k hd hstep hk
    refine ⟨_, generate_pos_eq step hd, ?_⟩
    have hdiv : (360 : ℝ) / step = (k : ℝ) := by
      field_simp
      linarith [hk]
    simp [bearings, numPoints, hdiv]
  exact ⟨main, fun lat lon d hd => main lat lon d 10 36 hd (by norm_num) (by norm_num)⟩

/-- Witness for C4 at the concrete input `(0, 0, 1)` with the default step. -/
theorem generate_card_witness :
    ∃ pts, generateCirclePoints 0 0 1 = Except.ok pts ∧ pts.length = 36 :=
  generate_card.2 0 0 1 one_pos

/-! ## C5: ordering and per-point bookkeeping fields -/

/-- C5: the returned sequence is in strictly increasing bearing order starting
at 0 degrees; the `i`-th point has `angle = i · step` and `distance` equal to
the requested distance. -/
theorem generate_ordering :
    ∀ (lat lon d step : ℝ) (pts : List GeneratedPoint), 0 < d → 0 < step →
      generateCirclePoints lat lon d step = Except.ok pts →
      (∀ i (hi : i < pts.length),
        (pts.get ⟨i, hi⟩).angle = (i : ℝ) * step ∧ (pts.get ⟨i, hi⟩).distance = d) ∧
      pts.Pairwise (fun p q => p.angle < q.angle) := by
  intro lat lon d step pts hd hstep hok
  rw [generate_pos_eq step hd] at hok
  cases (Except.ok.injEq _ _).mp hok.symm
  constructor
  · intro i hi
    have hi' : i < numPoints step := by
      simpa [bearings] using hi
    simp [bearings, List.get_eq_getElem, destinationPoint]
  · rw [bearings, List.map_map, List.pairwise_map]
    refine (List.pairwise_lt_range _).imp ?_
    intro a b hab
    simp only [Function.comp, destinationPoint]
    exact mul_lt_mul_of_pos_right (by exact_mod_cast hab) hstep

/-- Witness for C5 at the concrete input `(0, 0, 1, 10)`: the produced ring is
strictly increasing in bearing. -/
theorem generate_ordering_witness :
    ((bearings 10).map (destinationPoint 0 0 1)).Pairwise (fun p q => p.angle < q.angle) :=
  (generate_ordering 0 0 1 10 _ one_pos (by norm_num) (generate_pos_eq 10 one_pos)).2

/-! ## C6: output range invariants -/

theorem wrapLon_eq_fract (x : ℝ) :
    wrapLon x = 360 * Int.fract ((x + 180) / 360) - 180 := by
  rw [wrapLon, Int.fract]
  ring

theorem wrapLon_mem (x : ℝ) : -180 ≤ wrapLon x ∧ wrapLon x < 180 := by
  rw [wrapLon_eq_fract]
  have h0 := Int.fract_nonneg ((x + 180) / 360)
  have h1 := Int.fract_lt_one ((x + 180) / 360)
  constructor <;> nlinarith

theorem toDeg_mem {x : ℝ} (h0 : -(Real.pi / 2) ≤ x) (h1 : x ≤ Real.pi / 2) :
    -90 ≤ toDeg x ∧ toDeg x ≤ 90 := by
  have hπ := Real.pi_pos
  rw [toDeg]
  constructor
  · rw [le_div_iff₀ hπ]
    nlinarith
  · rw [div_le_iff₀ hπ]
    nlinarith

/-- C6: every point of a successful call has `-180 ≤ longitude < 180` (the raw
destination longitude is wrapped through `((λ + 180) mod 360) - 180` with the
non-negative remainder, so a destination just past +180° is reported at or just
above -180°) and `-90 ≤ latitude ≤ 90`. -/
theorem generate_ranges :
    ∀ (lat lon d step : ℝ) (pts : List GeneratedPoint),
      generateCirclePoints lat lon d step = Except.ok pts →
      ∀ p ∈ pts, (-180 ≤ p.longitude ∧ p.longitude < 180) ∧
        (-90 ≤ p.latitude ∧ p.latitude ≤ 90) := by
  intro lat lon d step pts hok p hp
  by_cases hd : d ≤ 0
  · rw [generateCirclePoints, if_pos hd] at hok
    exact absurd hok (by simp)
  · rw [generate_pos_eq step (not_le.mp hd)] at hok
    cases (Except.ok.injEq _ _).mp hok.symm
    obtain ⟨θ, -, rfl⟩ := List.mem_map.mp hp
    refine ⟨wrapLon_mem _, ?_⟩
    exact toDeg_mem (Real.neg_pi_div_two_le_arcsin _) (Real.arcsin_le_pi_div_two _)

/-- Witness for C6: the bearing-0 point of the call `(0, 0, 1, 10)` is inside
both ranges. -/
theorem generate_ranges_witness :
    (-180 ≤ (destinationPoint 0 0 1 0).longitude ∧ (destinationPoint 0 0 1 0).longitude < 180) ∧
    (-90 ≤ (destinationPoint 0 0 1 0).latitude ∧ (destinationPoint 0 0 1 0).latitude ≤ 90) :=
  generate_ranges 0 0 1 10 _ (generate_pos_eq 10 one_pos) _ (dest_mem_ring_ten 0 0 1)

/-! ## C1: the direct-geodesic formula -/

/-- C1: for a valid center and a positive distance, every generated point is
the spherical direct-geodesic destination for its bearing: with
`δ = d / 3958.8`, `φ2 = asin(sin φ1 · cos δ + cos φ1 · sin δ · cos θ)` and
`λ2 = λ1 + atan2(sin θ · sin δ · cos φ1, cos δ - sin φ1 · sin φ2)`, all angles
converted between degrees and radians. -/
theorem generate_formula (lat lon d step : ℝ)
    (_h1 : -90 ≤ lat) (_h2 : lat ≤ 90) (_h3 : -180 ≤ lon) (_h4 : lon ≤ 180) (hd : 0 < d) :
    generateCirclePoints lat lon d step =
      Except.ok ((List.range (numPoints step)).map (fun i : ℕ =>
        ({ distance := d,
           angle := (i : ℝ) * step,
           latitude := toDeg (Real.arcsin
            (Real.sin (toRad lat) * Real.cos (d / earthRadiusMiles) +
              Real.cos (toRad lat) * Real.sin (d / earthRadiusMiles) *
                Real.cos (toRad ((i : ℝ) * step)))),
           longitude := wrapLon (toDeg (toRad lon +
            atan2
              (Real.sin (toRad ((i : ℝ) * step)) * Real.sin (d / earthRadiusMiles) *
                Real.cos (toRad lat))
              (Real.cos (d / earthRadiusMiles) -
                Real.sin (toRad lat) * Real.sin (Real.arcsin
                  (Real.sin (toRad lat) * Real.cos (d / earthRadiusMiles) +
                    Real.cos (toRad lat) * Real.sin (d / earthRadiusMiles) *
                      Real.cos (toRad ((i : ℝ) * step))))))) } : GeneratedPoint))) := by
  rw [generate_pos_eq step hd, bearings, List.map_map]
  rfl

/-- Witness for C1 at the concrete input `(0, 0, 1, 10)`. -/
theorem generate_formula_witness :
    generateCirclePoints 0 0 1 10 =
      Except.ok ((List.range (numPoints 10)).map (fun i : ℕ =>
        ({ distance := 1,
           angle := (i : ℝ) * 10,
           latitude := toDeg (Real.arcsin
            (Real.sin (toRad 0) * Real.cos (1 / earthRadiusMiles) +
              Real.cos (toRad 0) * Real.sin (1 / earthRadiusMiles) *
                Real.cos (toRad ((i : ℝ) * 10)))),
           longitude := wrapLon (toDeg (toRad 0 +
            atan2
              (Real.sin (toRad ((i : ℝ) * 10)) * Real.sin (1 / earthRadiusMiles) *
                Real.cos (toRad 0))
              (Real.cos (1 / earthRadiusMiles) -
                Real.sin (toRad 0) * Real.sin (Real.arcsin
                  (Real.sin (toRad 0) * Real.cos (1 / earthRadiusMiles) +
                    Real.cos (toRad 0) * Real.sin (1 / earthRadiusMiles) *
                      Real.cos (toRad ((i : ℝ) * 10))))))) } : GeneratedPoint))) :=
  generate_formula 0 0 1 10 (by norm_num) (by norm_num) (by norm_num) (by norm_num) one_pos

/-! ## C10: the distance list never exceeds 5 entries -/

theorem enumFrom_filter_lt_map_snd :
    ∀ (s : List String) (n m : ℕ), m < n →
      ((s.enumFrom n).filter (fun p => decide (p.1 ≠ m))).map Prod.snd = s := by
  intro s
  induction s with
  | nil => intro n m _; rfl
  | cons a t ih =>
    intro n m hm
    have hne : n ≠ m := (Nat.ne_of_lt hm).symm
    simp only [List.enumFrom, List.filter_cons, decide_eq_true_eq]
    rw [if_pos hne]
    simp only [List.map_cons]
    rw [ih (n + 1) m (Nat.lt_succ_of_lt hm)]

theorem enumFrom_filter_ne_map_snd :
    ∀ (s : List String) (n i : ℕ),
      ((s.enumFrom n).filter (fun p => decide (p.1 ≠ n + i))).map Prod.snd = s.eraseIdx i := by
  intro s
  induction s with
  | nil => intro n i; rfl
  | cons a t ih =>
    intro n i
    cases i with
    | zero =>
      simp only [List.enumFrom, List.filter_cons, decide_eq_true_eq, Nat.add_zero]
      rw [if_neg (by simp)]
      rw [enumFrom_filter_lt_map_snd t (n + 1) n (Nat.lt_succ_self n)]
      rfl
    | succ j =>
      simp only [List.enumFrom, List.filter_cons, decide_eq_true_eq]
      rw [if_pos (by omega)]
      simp only [List.map_cons]
      have : n + (j + 1) = (n + 1) + j := by omega
      rw [this, ih (n + 1) j]
      rfl

theorem removeDistance_eq_eraseIdx (i : ℕ) (s : List String) :
    removeDistance i s = s.eraseIdx i := by
  rw [removeDistance, List.enum]
  have h := enumFrom_filter_ne_map_snd s 0 i
  simpa using h

/-- C10: from the initial three-entry state, every distance-list state the
`App` transitions can reach has at most 5 entries: `addDistance` appends an
empty entry only while the length is strictly below 5 (and leaves the list
unchanged otherwise, matching the render guard on the Add Distance button),
`handleDistanceChange` preserves the length, and `removeDistance` of a valid
index shortens the list by one. -/
theorem distances_at_most_five :
    (∀ s, ReachableDistances s → s.length ≤ 5) ∧
    initialDistances.length = 3 ∧
    (∀ s : List String, s.length < 5 → addDistance s = s ++ [""]) ∧
    (∀ s : List String, ¬s.length < 5 → addDistance s = s) ∧
    (∀ (i : ℕ) (v : String) (s : List String),
      (handleDistanceChange i v s).length = s.length) ∧
    (∀ (i : ℕ) (s : List String), i < s.length →
      (removeDistance i s).length = s.length - 1) := by
  refine ⟨?_, rfl, fun s h => if_pos h, fun s h => if_neg h,
    fun i v s => List.length_set s i v, fun i s h => ?_⟩
  · intro s h
    induction h with
    | init => decide
    | add h ih =>
      rw [addDistance]
      split_ifs with hlen
      · simp only [List.length_append, List.length_singleton]
        omega
      · exact ih
    | change i v h ih =>
      rw [handleDistanceChange, List.length_set]
      exact ih
    | remove i h ih =>
      rw [removeDistance_eq_eraseIdx]
      exact le_trans (List.length_eraseIdx_le _ _) ih
  · rw [removeDistance_eq_eraseIdx]
    exact List.length_eraseIdx_of_lt h

/-- Witness for C10 at the initial state. -/
theorem distances_at_most_five_witness :
    initialDistances.length ≤ 5 ∧
    addDistance initialDistances = initialDistances ++ [""] ∧
    (handleDistanceChange 0 "2" initialDistances).length = initialDistances.length ∧
    (removeDistance 0 initialDistances).length = initialDistances.length - 1 :=
  ⟨distances_at_most_five.1 initialDistances ReachableDistances.init,
   distances_at_most_five.2.2.1 initialDistances (by decide),
   distances_at_most_five.2.2.2.2.1 0 "2" initialDistances,
   distances_at_most_five.2.2.2.2.2 0 initialDistances (by decide)⟩

/-! ## C9: the caller establishes the core's preconditions -/

/-- C9: `handleGenerate` calls the core only after the parsed latitude lies in
`[-90, 90]` and the parsed longitude in `[-180, 180]`, and only with distances
that parsed (non-NaN, modelled as `some`) and are strictly positive; the list
of core calls is non-empty, and every such call succeeds, so the core's
`InvalidDistance` branch is unreachable from this caller (on validation
failure only an error message is produced and the core is never called). -/
theorem handleGenerate_core_preconditions :
    ∀ (lat lon : Option ℝ) (ds : List (Option ℝ)) (la lo : ℝ) (vds : List ℝ),
      handleGenerate lat lon ds = GenOutcome.calls la lo vds →
      lat = some la ∧ (-90 ≤ la ∧ la ≤ 90) ∧
      lon = some lo ∧ (-180 ≤ lo ∧ lo ≤ 180) ∧
      vds ≠ [] ∧
      (∀ d ∈ vds, 0 < d ∧ some d ∈ ds) ∧
      (∀ d ∈ vds, generateCirclePoints la lo d =
        Except.ok ((bearings 10).map (destinationPoint la lo d))) := by
  intro lat lon ds la lo vds h
  cases lat with
  | none => exact absurd h (by simp [handleGenerate])
  | some la' =>
    cases lon with
    | none =>
      rw [handleGenerate] at h
      split_ifs at h
    | some lo' =>
      rw [handleGenerate] at h
      split_ifs at h with hla hlo hlen
      obtain ⟨rfl, rfl, rfl⟩ := (GenOutcome.calls.injEq _ _ _ _ _ _).mp h
      push_neg at hla hlo
      have hmem : ∀ d ∈ (ds.filterMap id).filter (fun d => decide (0 < d)),
          0 < d ∧ some d ∈ ds := by
        intro d hd
        obtain ⟨hd1, hd2⟩ := List.mem_filter.mp hd
        refine ⟨of_decide_eq_true hd2, ?_⟩
        obtain ⟨a, ha, ha'⟩ := List.mem_filterMap.mp hd1
        rw [← ha']
        exact ha
      refine ⟨rfl, ⟨by linarith [hla.1], hla.2⟩, rfl, ⟨by linarith [hlo.1], hlo.2⟩,
        ?_, hmem, ?_⟩
      · intro hnil
        rw [hnil] at hlen
        exact hlen rfl
      · intro d hd
        exact generate_pos_eq 10 (hmem d hd).1

/-- Witness for C9: the call with parsed center `(0, 0)` and distance inputs
`[1]` reaches the core with the single distance 1, and that call succeeds. -/
theorem handleGenerate_core_preconditions_witness :
    generateCirclePoints (0 : ℝ) 0 1 =
      Except.ok ((bearings 10).map (destinationPoint 0 0 1)) := by
  have hcall : handleGenerate (some 0) (some 0) [some 1] = GenOutcome.calls 0 0 [1] := by
    rw [handleGenerate]
    rw [if_neg (by norm_num), if_neg (by norm_num)]
    have hfil : (([some (1 : ℝ)].filterMap id).filter (fun d => decide (0 < d))) = [1] := by
      simp
    rw [hfil]
    simp
  exact (handleGenerate_core_preconditions (some 0) (some 0) [some 1] 0 0 [1]
    hcall).2.2.2.2.2.2 1 (by simp)

/-! ## C8: the bearing-0 point lies due north of the equatorial center -/

theorem earthRadius_pos : (0 : ℝ) < earthRadiusMiles := by
  rw [earthRadiusMiles]
  norm_num

theorem toRad_zero : toRad 0 = 0 := by
  rw [toRad]
  ring

theorem toDeg_zero : toDeg 0 = 0 := by
  rw [toDeg]
  ring

theorem mk_eq_ofReal (x : ℝ) : (⟨x, 0⟩ : ℂ) = (x : ℂ) := by
  apply Complex.ext <;> simp

theorem atan2_zero_of_nonneg {x : ℝ} (hx : 0 ≤ x) : atan2 0 x = 0 := by
  rw [atan2, mk_eq_ofReal]
  exact Complex.arg_ofReal_of_nonneg hx

theorem wrapLon_eq_self {x : ℝ} (h1 : -180 ≤ x) (h2 : x < 180) : wrapLon x = x := by
  have hfl : ⌊(x + 180) / 360⌋ = 0 := by
    apply Int.floor_eq_zero_iff.mpr
    constructor
    · apply div_nonneg (by linarith) (by norm_num)
    · rw [div_lt_one (by norm_num)]
      linarith
  rw [wrapLon, hfl]
  push_cast
  ring

theorem destLat_zero_center (d : ℝ) :
    destLatRad 0 d 0 = Real.arcsin (Real.sin (d / earthRadiusMiles)) := by
  rw [destLatRad, toRad_zero, Real.sin_zero, Real.cos_zero]
  ring_nf

/-- C8 (amended): for center `(0, 0)` and `0 < d ≤ (π/2)·3958.8` (within a
quarter of the great circle), the point generated at angle 0 lies due north:
its longitude equals 0 and its latitude equals `d / 3958.8` radians converted
to degrees (exactly, hence within 1e-9). -/
theorem generate_bearing_zero :
    ∀ (d step : ℝ) (pts : List GeneratedPoint), 0 < d →
      d ≤ Real.pi / 2 * earthRadiusMiles →
      generateCirclePoints 0 0 d step = Except.ok pts →
      ∀ p ∈ pts, p.angle = 0 →
        p.longitude = 0 ∧ |p.latitude - toDeg (d / earthRadiusMiles)| ≤ 1 / 1000000000 := by
  intro d step pts hd hdle hok p hp hang
  rw [generate_pos_eq step hd] at hok
  cases (Except.ok.injEq _ _).mp hok.symm
  obtain ⟨θ, -, rfl⟩ := List.mem_map.mp hp
  have hθ : θ = 0 := hang
  subst hθ
  have hδ0 : 0 ≤ d / earthRadiusMiles := le_of_lt (div_pos hd earthRadius_pos)
  have hδle : d / earthRadiusMiles ≤ Real.pi / 2 := by
    rw [div_le_iff₀ earthRadius_pos]
    linarith
  constructor
  · show wrapLon (toDeg (destLonRad 0 0 d 0)) = 0
    have hlon : destLonRad 0 0 d 0 = 0 := by
      rw [destLonRad, toRad_zero, Real.sin_zero]
      simp only [zero_mul, mul_zero, sub_zero, zero_add]
      exact atan2_zero_of_nonneg
        (Real.cos_nonneg_of_mem_Icc ⟨by linarith [Real.pi_pos], hδle⟩)
    rw [hlon, toDeg_zero]
    exact wrapLon_eq_self (by norm_num) (by norm_num)
  · show |toDeg (destLatRad 0 d 0) - toDeg (d / earthRadiusMiles)| ≤ 1 / 1000000000
    rw [destLat_zero_center,
      Real.arcsin_sin (by linarith [Real.pi_pos]) hδle]
    simp

/-- Witness for the amended C8 at the concrete input `(0, 0, 1, 10)`. -/
theorem generate_bearing_zero_witness :
    (destinationPoint 0 0 1 0).longitude = 0 ∧
    |(destinationPoint 0 0 1 0).latitude - toDeg (1 / earthRadiusMiles)| ≤ 1 / 1000000000 :=
  generate_bearing_zero 1 10 _ one_pos
    (by nlinarith [Real.pi_gt_three, earthRadius_pos, (by rw [earthRadiusMiles]; norm_num :
      (3958 : ℝ) ≤ earthRadiusMiles)])
    (generate_pos_eq 10 one_pos) _ (dest_mem_ring_ten 0 0 1) rfl

/-- Counterexample to C8 as stated: at the finite distance
`d = π · 3958.8 > 0` (half the great circle) the bearing-0 point of center
`(0, 0)` has latitude 0, not `d / 3958.8` radians in degrees (= 180), so the
claimed 1e-9 tolerance fails. -/
theorem generate_bearing_zero_cex :
    0 < Real.pi * earthRadiusMiles ∧
    generateCirclePoints 0 0 (Real.pi * earthRadiusMiles) 10 =
      Except.ok ((bearings 10).map (destinationPoint 0 0 (Real.pi * earthRadiusMiles))) ∧
    destinationPoint 0 0 (Real.pi * earthRadiusMiles) 0 ∈
      (bearings 10).map (destinationPoint 0 0 (Real.pi * earthRadiusMiles)) ∧
    (destinationPoint 0 0 (Real.pi * earthRadiusMiles) 0).angle = 0 ∧
    ¬ |(destinationPoint 0 0 (Real.pi * earthRadiusMiles) 0).latitude -
        toDeg (Real.pi * earthRadiusMiles / earthRadiusMiles)| ≤ 1 / 1000000000 := by
  have hpos : 0 < Real.pi * earthRadiusMiles := mul_pos Real.pi_pos earthRadius_pos
  have hδ : Real.pi * earthRadiusMiles / earthRadiusMiles = Real.pi :=
    mul_div_cancel_right₀ _ (ne_of_gt earthRadius_pos)
  refine ⟨hpos, generate_pos_eq 10 hpos, dest_mem_ring_ten _ _ _, rfl, ?_⟩
  have hlat : (destinationPoint 0 0 (Real.pi * earthRadiusMiles) 0).latitude = 0 := by
    show toDeg (destLatRad 0 (Real.pi * earthRadiusMiles) 0) = 0
    rw [destLat_zero_center, hδ, Real.sin_pi, Real.arcsin_zero, toDeg_zero]
  rw [hlat, hδ, toDeg]
  have h180 : Real.pi * 180 / Real.pi = 180 := by
    rw [mul_comm, mul_div_assoc, div_self Real.pi_ne_zero, mul_one]
  rw [h180, zero_sub, abs_neg, abs_of_nonneg (by norm_num : (0 : ℝ) ≤ 180)]
  norm_num

/-! ## C2: haversine round trip — spherical trigonometry groundwork -/

theorem one_sub_sinSum_sq (p δ t : ℝ) :
    1 - (Real.sin p * Real.cos δ + Real.cos p * Real.sin δ * Real.cos t) ^ 2 =
      (Real.sin p * Real.sin δ * Real.cos t - Real.cos p * Real.cos δ) ^ 2 +
        (Real.sin δ * Real.sin t) ^ 2 := by
  linear_combination (-(Real.cos δ ^ 2 + Real.sin δ ^ 2 * Real.cos t ^ 2)) *
      Real.sin_sq_add_cos_sq p - Real.sin_sq_add_cos_sq δ -
    Real.sin δ ^ 2 * Real.sin_sq_add_cos_sq t

theorem sinSum_sq_le_one (p δ t : ℝ) :
    (Real.sin p * Real.cos δ + Real.cos p * Real.sin δ * Real.cos t) ^ 2 ≤ 1 := by
  have h := one_sub_sinSum_sq p δ t
  nlinarith [sq_nonneg (Real.sin p * Real.sin δ * Real.cos t - Real.cos p * Real.cos δ),
    sq_nonneg (Real.sin δ * Real.sin t)]

theorem radius_sq_identity (p δ t : ℝ) :
    (Real.cos δ - Real.sin p *
        (Real.sin p * Real.cos δ + Real.cos p * Real.sin δ * Real.cos t)) ^ 2 +
      (Real.sin t * Real.sin δ * Real.cos p) ^ 2 =
    (Real.cos p) ^ 2 *
      (1 - (Real.sin p * Real.cos δ + Real.cos p * Real.sin δ * Real.cos t) ^ 2) := by
  linear_combination ((Real.sin p * Real.cos δ + Real.cos p * Real.sin δ * Real.cos t) ^ 2 -
        Real.cos δ ^ 2) * Real.sin_sq_add_cos_sq p +
    Real.cos p ^ 2 * Real.sin_sq_add_cos_sq δ +
    Real.cos p ^ 2 * Real.sin δ ^ 2 * Real.sin_sq_add_cos_sq t

theorem toRad_toDeg (x : ℝ) : toRad (toDeg x) = x := by
  rw [toRad, toDeg]
  field_simp

theorem toRad_mem_pi_half {lat : ℝ} (h1 : -90 ≤ lat) (h2 : lat ≤ 90) :
    -(Real.pi / 2) ≤ toRad lat ∧ toRad lat ≤ Real.pi / 2 := by
  rw [toRad]
  have hπ := Real.pi_pos
  constructor
  · nlinarith [mul_nonneg (by linarith : (0 : ℝ) ≤ lat + 90) hπ.le]
  · nlinarith [mul_nonneg (by linarith : (0 : ℝ) ≤ 90 - lat) hπ.le]

theorem atan2_sin_cos {t : ℝ} (h1 : -Real.pi < t) (h2 : t ≤ Real.pi) :
    atan2 (Real.sin t) (Real.cos t) = t := by
  rw [atan2]
  have hmk : (⟨Real.cos t, Real.sin t⟩ : ℂ) =
      Complex.cos t + Complex.sin t * Complex.I := by
    rw [Complex.mk_eq_add_mul_I, Complex.ofReal_cos, Complex.ofReal_sin]
  rw [hmk]
  exact Complex.arg_cos_add_sin_mul_I ⟨h1, h2⟩

theorem cos_dest_core (p δ t : ℝ) (hcosp : 0 ≤ Real.cos p) :
    Real.sin p * Real.sin (Real.arcsin
        (Real.sin p * Real.cos δ + Real.cos p * Real.sin δ * Real.cos t)) +
      Real.cos p * Real.cos (Real.arcsin
        (Real.sin p * Real.cos δ + Real.cos p * Real.sin δ * Real.cos t)) *
        Real.cos (atan2 (Real.sin t * Real.sin δ * Real.cos p)
          (Real.cos δ - Real.sin p * Real.sin (Real.arcsin
            (Real.sin p * Real.cos δ + Real.cos p * Real.sin δ * Real.cos t)))) =
      Real.cos δ := by
  set s := Real.sin p * Real.cos δ + Real.cos p * Real.sin δ * Real.cos t with hs
  have hs2 : s ^ 2 ≤ 1 := by
    rw [hs]
    exact sinSum_sq_le_one p δ t
  have hsl : -1 ≤ s ∧ s ≤ 1 := abs_le.mp ((sq_le_one_iff_abs_le_one s).mp hs2)
  have hsin : Real.sin (Real.arcsin s) = s := Real.sin_arcsin hsl.1 hsl.2
  have hcos : Real.cos (Real.arcsin s) = Real.sqrt (1 - s ^ 2) := Real.cos_arcsin s
  rw [hsin, hcos]
  set x := Real.cos δ - Real.sin p * s with hx
  set y := Real.sin t * Real.sin δ * Real.cos p with hy
  have hxy : x ^ 2 + y ^ 2 = (Real.cos p) ^ 2 * (1 - s ^ 2) := by
    rw [hx, hy, hs]
    exact radius_sq_identity p δ t
  have h1s : 0 ≤ 1 - s ^ 2 := by nlinarith
  have hsq : Real.sqrt (1 - s ^ 2) ^ 2 = 1 - s ^ 2 := Real.sq_sqrt h1s
  have habs : Complex.abs ⟨x, y⟩ = Real.cos p * Real.sqrt (1 - s ^ 2) := by
    rw [Complex.abs_apply, Complex.normSq_mk]
    have hsum : x * x + y * y = (Real.cos p * Real.sqrt (1 - s ^ 2)) ^ 2 := by
      nlinarith [hxy, hsq]
    rw [hsum, Real.sqrt_sq (mul_nonneg hcosp (Real.sqrt_nonneg _))]
  by_cases hz : (⟨x, y⟩ : ℂ) = 0
  · have hx0 : x = 0 := congrArg Complex.re hz
    have hr0 : Real.cos p * Real.sqrt (1 - s ^ 2) = 0 := by
      rw [← habs, hz]
      simp
    calc Real.sin p * s + Real.cos p * Real.sqrt (1 - s ^ 2) * Real.cos (atan2 y x)
        = Real.sin p * s + 0 * Real.cos (atan2 y x) := by rw [hr0]
      _ = Real.sin p * s := by ring
      _ = Real.cos δ := by
          rw [hx] at hx0
          linarith
  · have hcosarg : Real.cos (Complex.arg ⟨x, y⟩) = x / Complex.abs ⟨x, y⟩ :=
      Complex.cos_arg hz
    have hne : Real.cos p * Real.sqrt (1 - s ^ 2) ≠ 0 := by
      rw [← habs]
      exact Complex.abs.ne_zero hz
    rw [atan2, hcosarg, habs]
    have hcancel : Real.cos p * Real.sqrt (1 - s ^ 2) *
        (x / (Real.cos p * Real.sqrt (1 - s ^ 2))) = x := by
      field_simp
    rw [hcancel, hx]
    ring

theorem cos_dest (lat d θ : ℝ) (h1 : -90 ≤ lat) (h2 : lat ≤ 90) :
    Real.sin (toRad lat) * Real.sin (destLatRad lat d θ) +
      Real.cos (toRad lat) * Real.cos (destLatRad lat d θ) *
        Real.cos (atan2
          (Real.sin (toRad θ) * Real.sin (d / earthRadiusMiles) * Real.cos (toRad lat))
          (Real.cos (d / earthRadiusMiles) -
            Real.sin (toRad lat) * Real.sin (destLatRad lat d θ))) =
      Real.cos (d / earthRadiusMiles) := by
  have hb := toRad_mem_pi_half h1 h2
  have hcosp : 0 ≤ Real.cos (toRad lat) := Real.cos_nonneg_of_mem_Icc ⟨hb.1, hb.2⟩
  rw [destLatRad]
  exact cos_dest_core (toRad lat) (d / earthRadiusMiles) (toRad θ) hcosp

theorem sin_half_sq (u : ℝ) : Real.sin (u / 2) ^ 2 = 1 / 2 - Real.cos u / 2 := by
  have h := Real.sin_sq_eq_half_sub (u / 2)
  rwa [show 2 * (u / 2) = u by ring] at h

theorem haverA_dest (lat lon d θ : ℝ) (h1 : -90 ≤ lat) (h2 : lat ≤ 90) :
    haverA lat lon (toDeg (destLatRad lat d θ)) (wrapLon (toDeg (destLonRad lat lon d θ))) =
      (1 - Real.cos (d / earthRadiusMiles)) / 2 := by
  have hdLat : toRad (toDeg (destLatRad lat d θ) - lat) = destLatRad lat d θ - toRad lat := by
    simp only [toRad, toDeg]
    field_simp
    ring
  have hdLon : toRad (wrapLon (toDeg (destLonRad lat lon d θ)) - lon) =
      (destLonRad lat lon d θ - toRad lon) -
        (⌊(toDeg (destLonRad lat lon d θ) + 180) / 360⌋ : ℤ) * (2 * Real.pi) := by
    simp only [toRad, toDeg, wrapLon]
    field_simp
    ring
  have hΔ : destLonRad lat lon d θ - toRad lon =
      atan2 (Real.sin (toRad θ) * Real.sin (d / earthRadiusMiles) * Real.cos (toRad lat))
        (Real.cos (d / earthRadiusMiles) -
          Real.sin (toRad lat) * Real.sin (destLatRad lat d θ)) := by
    rw [destLonRad]
    ring
  rw [haverA, hdLat, hdLon, toRad_toDeg, sin_half_sq, sin_half_sq,
    Real.cos_sub_int_mul_two_pi, hΔ, Real.cos_sub]
  linear_combination (-(1 : ℝ) / 2) * cos_dest lat d θ h1 h2

theorem haversine_dest (lat lon d θ : ℝ) (h1 : -90 ≤ lat) (h2 : lat ≤ 90)
    (hd : 0 < d) (hdle : d ≤ Real.pi * earthRadiusMiles) :
    haversineDistanceMiles lat lon
      (toDeg (destLatRad lat d θ)) (wrapLon (toDeg (destLonRad lat lon d θ))) = d := by
  have hπ := Real.pi_pos
  have hδ0 : 0 < d / earthRadiusMiles := div_pos hd earthRadius_pos
  have hδπ : d / earthRadiusMiles ≤ Real.pi := by
    rw [div_le_iff₀ earthRadius_pos]
    linarith
  rw [haversineDistanceMiles, haverA_dest lat lon d θ h1 h2]
  rw [← Real.sin_half_eq_sqrt hδ0.le (by linarith)]
  rw [show (1 : ℝ) - (1 - Real.cos (d / earthRadiusMiles)) / 2 =
    (1 + Real.cos (d / earthRadiusMiles)) / 2 by ring]
  rw [← Real.cos_half (by linarith) hδπ]
  rw [atan2_sin_cos (by linarith) (by linarith)]
  field_simp [ne_of_gt earthRadius_pos]
  ring

/-- C2 (amended): for a valid center and `0 < d ≤ π · 3958.8` (at most half the
great circle), the haversine great-circle distance from the center to each
generated point equals `d` exactly, hence within 1e-6 miles. -/
theorem generate_roundtrip :
    ∀ (lat lon d step : ℝ) (pts : List GeneratedPoint),
      -90 ≤ lat → lat ≤ 90 → -180 ≤ lon → lon ≤ 180 →
      0 < d → d ≤ Real.pi * earthRadiusMiles →
      generateCirclePoints lat lon d step = Except.ok pts →
      ∀ p ∈ pts,
        |haversineDistanceMiles lat lon p.latitude p.longitude - d| ≤ 1 / 1000000 := by
  intro lat lon d step pts h1 h2 h3 h4 hd hdle hok p hp
  rw [generate_pos_eq step hd] at hok
  cases (Except.ok.injEq _ _).mp hok.symm
  obtain ⟨θ, -, rfl⟩ := List.mem_map.mp hp
  have h := haversine_dest lat lon d θ h1 h2 hd hdle
  show |haversineDistanceMiles lat lon
    (toDeg (destLatRad lat d θ)) (wrapLon (toDeg (destLonRad lat lon d θ))) - d| ≤ 1 / 1000000
  rw [h, sub_self, abs_zero]
  norm_num

/-- Witness for the amended C2 at the concrete input `(0, 0, 1, 10)` and its
bearing-0 point. -/
theorem generate_roundtrip_witness :
    |haversineDistanceMiles 0 0 (destinationPoint 0 0 1 0).latitude
      (destinationPoint 0 0 1 0).longitude - 1| ≤ 1 / 1000000 :=
  generate_roundtrip 0 0 1 10 _ (by norm_num) (by norm_num) (by norm_num) (by norm_num)
    one_pos
    (by nlinarith [Real.pi_gt_three, earthRadius_pos,
      (by rw [earthRadiusMiles]; norm_num : (3958 : ℝ) ≤ earthRadiusMiles)])
    (generate_pos_eq 10 one_pos) _ (dest_mem_ring_ten 0 0 1)

theorem destLon_zero_center {d : ℝ} (h : 0 ≤ Real.cos (d / earthRadiusMiles)) :
    destLonRad 0 0 d 0 = 0 := by
  rw [destLonRad, toRad_zero, Real.sin_zero]
  simp only [zero_mul, mul_zero, sub_zero, zero_add]
  exact atan2_zero_of_nonneg h

theorem haversine_zero_center : haversineDistanceMiles 0 0 0 0 = 0 := by
  have ha : haverA 0 0 0 0 = 0 := by
    rw [haverA]
    norm_num [toRad_zero, Real.sin_zero]
  rw [haversineDistanceMiles, ha, Real.sqrt_zero, sub_zero, Real.sqrt_one,
    atan2_zero_of_nonneg zero_le_one]
  ring

/-- Counterexample to C2 as stated: at the finite distance
`d = 2π · 3958.8 > 0` (a full great circle) the bearing-0 point of center
`(0, 0)` coincides with the center, so its haversine distance from the center
is 0, not within 1e-6 miles of `d`. -/
theorem generate_roundtrip_cex :
    0 < 2 * Real.pi * earthRadiusMiles ∧
    generateCirclePoints 0 0 (2 * Real.pi * earthRadiusMiles) 10 =
      Except.ok ((bearings 10).map (destinationPoint 0 0 (2 * Real.pi * earthRadiusMiles))) ∧
    destinationPoint 0 0 (2 * Real.pi * earthRadiusMiles) 0 ∈
      (bearings 10).map (destinationPoint 0 0 (2 * Real.pi * earthRadiusMiles)) ∧
    ¬ |haversineDistanceMiles 0 0
        (destinationPoint 0 0 (2 * Real.pi * earthRadiusMiles) 0).latitude
        (destinationPoint 0 0 (2 * Real.pi * earthRadiusMiles) 0).longitude -
        2 * Real.pi * earthRadiusMiles| ≤ 1 / 1000000 := by
  have hR := earthRadius_pos
  have hπ := Real.pi_pos
  have hpos : 0 < 2 * Real.pi * earthRadiusMiles := by positivity
  have hδ : 2 * Real.pi * earthRadiusMiles / earthRadiusMiles = 2 * Real.pi :=
    mul_div_cancel_right₀ _ (ne_of_gt hR)
  refine ⟨hpos, generate_pos_eq 10 hpos, dest_mem_ring_ten _ _ _, ?_⟩
  have hlat : (destinationPoint 0 0 (2 * Real.pi * earthRadiusMiles) 0).latitude = 0 := by
    show toDeg (destLatRad 0 (2 * Real.pi * earthRadiusMiles) 0) = 0
    rw [destLat_zero_center, hδ, Real.sin_two_pi, Real.arcsin_zero, toDeg_zero]
  have hlon : (destinationPoint 0 0 (2 * Real.pi * earthRadiusMiles) 0).longitude = 0 := by
    show wrapLon (toDeg (destLonRad 0 0 (2 * Real.pi * earthRadiusMiles) 0)) = 0
    rw [destLon_zero_center (by rw [hδ, Real.cos_two_pi]; norm_num), toDeg_zero]
    exact wrapLon_eq_self (by norm_num) (by norm_num)
  rw [hlat, hlon, haversine_zero_center, zero_sub, abs_neg, abs_of_nonneg hpos.le]
  push_neg
  have h3 : (3 : ℝ) < Real.pi := Real.pi_gt_three
  have h4 : (3958 : ℝ) ≤ earthRadiusMiles := by
    rw [earthRadiusMiles]
    norm_num
  have h5 : 3 * earthRadiusMiles < Real.pi * earthRadiusMiles :=
    mul_lt_mul_of_pos_right h3 hR
  linarith

end CircleGen
